import Mathlib

/-!
Shallow embedding of the latitude-vs-globalwarming visualization scripts.

The repository consists of near-duplicate browser scripts (src/global.js and
the unnamed variants) that load a CSV of zonal temperature anomalies, keep a
mutable grouping of six fixed latitude bands into three groups, and recompute
per-group yearly mean anomalies on every interaction.

The embedding below translates the data model and the pure core of those
scripts: the sample rows, the six latitude bands, the grouping state, the
click-cycle state transition (handleBandClick), the per-group yearly averager
(computeGroupAverages, built on d3.rollups and d3.mean), the default preset
and reset actions, and the annotation guard (groupsMatchDefaultPattern).
JS numbers carrying data values (lat, tas) are modelled as rationals; years
are integers; JS Sets of band ids are modelled as Finset Nat (only membership,
insertion, deletion and size are used, so insertion order is irrelevant);
d3.mean of an empty list is undefined in JS, modelled as Option.none.
-/

/-- One CSV row after numeric coercion: `{year: +d.year, lat: +d.lat, tas: +d.tas}`. -/
structure Sample where
  year : Int
  lat : ℚ
  tas : ℚ
deriving DecidableEq, Repr

/-- One latitude band record `{id, min, max}` from the `latitudeBands` array. -/
structure Band where
  id : Nat
  min : ℚ
  max : ℚ
deriving DecidableEq, Repr

/-- The fixed `latitudeBands` array of src/global.js (identical in the variants
that have it): six 30-degree bands with ids 0..5. -/
def latitudeBands : List Band :=
  [ ⟨0, -90, -60⟩,
    ⟨1, -60, -30⟩,
    ⟨2, -30, 0⟩,
    ⟨3, 0, 30⟩,
    ⟨4, 30, 60⟩,
    ⟨5, 60, 90⟩ ]

/-- The mutable `userGroups` object: three JS Sets of band ids, keyed 1..3. -/
structure Groups where
  g1 : Finset Nat
  g2 : Finset Nat
  g3 : Finset Nat
deriving DecidableEq

/-- The initial `userGroups` value in src/global.js: three empty sets. -/
def initialGroups : Groups := ⟨∅, ∅, ∅⟩

/-- `handleBandClick(bandId)`: scan groups 1..3; on the first group holding the
band, delete it there and (if not group 3) add it to the next group; if no
group holds it, add it to group 1. -/
def handleBandClick (s : Groups) (bandId : Nat) : Groups :=
  if bandId ∈ s.g1 then
    { s with g1 := s.g1.erase bandId, g2 := insert bandId s.g2 }
  else if bandId ∈ s.g2 then
    { s with g2 := s.g2.erase bandId, g3 := insert bandId s.g3 }
  else if bandId ∈ s.g3 then
    { s with g3 := s.g3.erase bandId }
  else
    { s with g1 := insert bandId s.g1 }

/-- The band-membership test of the averager: `d.lat >= b.min && d.lat < b.max`. -/
def inBand (lat : ℚ) (b : Band) : Bool :=
  decide (b.min ≤ lat) && decide (lat < b.max)

/-- `d3.mean` over a list of numbers: undefined (`none`) on the empty list,
otherwise the arithmetic mean. -/
def d3mean (l : List ℚ) : Option ℚ :=
  if l = [] then none else some (l.sum / (l.length : ℚ))

/-- Key order of `d3.rollups` (an insertion-ordered map): the distinct keys in
order of first appearance. -/
def dedupKeepFirst : List Int → List Int
  | [] => []
  | y :: ys => y :: (dedupKeepFirst ys).filter (fun z => !decide (z = y))

/-- `d3.rollups(l, v => d3.mean(v, d => d.tas), d => d.year)` followed by the
`([year, tas]) => ({year, tas})` reshaping: one `(year, mean tas)` pair per
distinct year, in order of first appearance. -/
def rollupMeanByYear (l : List Sample) : List (Int × Option ℚ) :=
  (dedupKeepFirst (l.map Sample.year)).map (fun y =>
    (y, d3mean ((l.filter (fun d => decide (d.year = y))).map Sample.tas)))

/-- One element of the `groupResults` array: `{name, values}`. -/
structure GroupSeries where
  name : String
  values : List (Int × Option ℚ)
deriving DecidableEq

/-- One iteration of the `for (let g = 1; g <= 3; g++)` loop body of
`computeGroupAverages`: skip an empty group (`continue`), otherwise restrict
the bands to those whose id the group holds, filter the samples whose latitude
falls in one of those bands, and roll up mean tas by year. -/
def groupEntry (data : List Sample) (bandIds : Finset Nat) (bands : List Band)
    (g : Nat) : List GroupSeries :=
  if bandIds = ∅ then []
  else
    let groupBandRanges := bands.filter (fun b => decide (b.id ∈ bandIds))
    [{ name := "Group " ++ toString g,
       values := rollupMeanByYear
         (data.filter (fun d => groupBandRanges.any (fun b => inBand d.lat b))) }]

/-- `computeGroupAverages(data, groups, bands)` of src/global.js: the loop over
groups 1, 2, 3 unrolled into an append of the per-group entries. -/
def computeGroupAverages (data : List Sample) (groups : Groups)
    (bands : List Band) : List GroupSeries :=
  groupEntry data groups.g1 bands 1 ++ groupEntry data groups.g2 bands 2 ++
    groupEntry data groups.g3 bands 3

/-- The group filter predicate of one loop iteration, named for specification:
a sample matches a group when its latitude falls in some band whose id the
group holds. -/
def matchesGroup (ids : Finset Nat) (bands : List Band) (d : Sample) : Bool :=
  (bands.filter (fun b => decide (b.id ∈ ids))).any (fun b => inBand d.lat b)

/-- The arithmetic mean of a list of rationals (specification-side notion the
claims compare `d3mean` against). -/
def arithMean (l : List ℚ) : ℚ := l.sum / (l.length : ℚ)

/-- Lookup `userGroups[g]` for g in 1..3. -/
def groupOf (s : Groups) : Nat → Finset Nat
  | 1 => s.g1
  | 2 => s.g2
  | 3 => s.g3
  | _ => ∅

/-- The assignment of a band in the 4-state click cycle: 0 when unassigned,
otherwise the number of the first group holding it (the order in which
`handleBandClick` scans). -/
def assignment (s : Groups) (b : Nat) : Nat :=
  if b ∈ s.g1 then 1 else if b ∈ s.g2 then 2 else if b ∈ s.g3 then 3 else 0

/-- `applyDefaultPreset()` of src/unnamed/part_001: poles, mid-latitudes,
tropics. -/
def applyDefaultPreset : Groups := ⟨{0, 5}, {1, 4}, {2, 3}⟩

/-- The `clear-all` button listener of src/unnamed/part_001 replaces
`userGroups` with three fresh empty sets, ignoring the previous state. -/
def clearAllAction (_ : Groups) : Groups := ⟨∅, ∅, ∅⟩

/-- The `restore-defaults` button listener of src/unnamed/part_001 calls
`applyDefaultPreset()`, ignoring the previous state. -/
def restoreDefaultsAction (_ : Groups) : Groups := applyDefaultPreset

/-- Grouping states reachable in the scripts: from the initial empty grouping,
by clicks on the six drawn bands (the handlers pass `d.id` of a member of
`latitudeBands`), by the clear-all reset, and by the default preset (applied
at startup in part_001 and by the restore-defaults button). -/
inductive Reachable : Groups → Prop where
  | init : Reachable initialGroups
  | click {s : Groups} {b : Nat} (hs : Reachable s)
      (hb : b ∈ latitudeBands.map Band.id) : Reachable (handleBandClick s b)
  | clearAll {s : Groups} (hs : Reachable s) : Reachable (clearAllAction s)
  | restore {s : Groups} (hs : Reachable s) : Reachable (restoreDefaultsAction s)

/-- `groupsMatchDefaultPattern(groups)` of src/unnamed/part_001: false unless
all three group sizes are 2 (the sizes array has three entries, so the filter
count being 3 forces all of them to be 2); then truthy iff some group contains
both poles bands, some group contains both tropics bands, and some group
contains both mid-latitude bands. -/
def groupsMatchDefaultPattern (groups : Groups) : Bool :=
  let sizes := [groups.g1.card, groups.g2.card, groups.g3.card]
  if !(sizes.contains 2 && decide ((sizes.filter (fun s => s == 2)).length = 3)) then
    false
  else
    let entries := [groups.g1, groups.g2, groups.g3]
    (entries.any (fun s => decide (0 ∈ s) && decide (5 ∈ s))) &&
      (entries.any (fun s => decide (2 ∈ s) && decide (3 ∈ s))) &&
      (entries.any (fun s => decide (1 ∈ s) && decide (4 ∈ s)))

/-- One CSV row as delivered by the fetch/parse stage, already coerced to
numbers (the IEEE semantics of the JS unary `+` coercion is out of scope; the
loader's structure is what the claims are about). -/
structure RawRow where
  year : Int
  lat : ℚ
  tas : ℚ

/-- `loadTASData()`: the awaited fetch/parse either throws (modelled as
`Except.error`) — caught, logged, and the function returns `undefined`
(`none`) with no retry — or yields rows, each mapped to one
`{year, lat, tas}` record. -/
def loadTASData (fetched : Except String (List RawRow)) : Option (List Sample) :=
  match fetched with
  | Except.error _ => none
  | Except.ok rows => some (rows.map (fun r => ⟨r.year, r.lat, r.tas⟩))

namespace Part001

/-- `handleBandClick` of src/unnamed/part_001 (same logic as global.js). -/
def handleBandClick (s : Groups) (bandId : Nat) : Groups :=
  if bandId ∈ s.g1 then
    { s with g1 := s.g1.erase bandId, g2 := insert bandId s.g2 }
  else if bandId ∈ s.g2 then
    { s with g2 := s.g2.erase bandId, g3 := insert bandId s.g3 }
  else if bandId ∈ s.g3 then
    { s with g3 := s.g3.erase bandId }
  else
    { s with g1 := insert bandId s.g1 }

/-- One iteration of the loop of part_001's `computeGroupAverages` (its local
names are `ids`, `ranges`, `filtered`; the logic is that of global.js). -/
def seriesFor (data : List Sample) (ids : Finset Nat) (bands : List Band)
    (g : Nat) : List GroupSeries :=
  if ids = ∅ then []
  else
    let ranges := bands.filter (fun b => decide (b.id ∈ ids))
    [{ name := "Group " ++ toString g,
       values := rollupMeanByYear
         (data.filter (fun d => ranges.any (fun b => inBand d.lat b))) }]

/-- `computeGroupAverages` of src/unnamed/part_001. -/
def computeGroupAverages (data : List Sample) (groups : Groups)
    (bands : List Band) : List GroupSeries :=
  seriesFor data groups.g1 bands 1 ++ seriesFor data groups.g2 bands 2 ++
    seriesFor data groups.g3 bands 3

end Part001

namespace Part002

/-- `handleBandClick` of src/unnamed/part_002 (same logic as global.js). -/
def handleBandClick (s : Groups) (bandId : Nat) : Groups :=
  if bandId ∈ s.g1 then
    { s with g1 := s.g1.erase bandId, g2 := insert bandId s.g2 }
  else if bandId ∈ s.g2 then
    { s with g2 := s.g2.erase bandId, g3 := insert bandId s.g3 }
  else if bandId ∈ s.g3 then
    { s with g3 := s.g3.erase bandId }
  else
    { s with g1 := insert bandId s.g1 }

/-- One iteration of the loop of part_002's `computeGroupAverages` (its local
names are `bandIds`, `groupBandRanges`, `filtered`, as in global.js). -/
def seriesFor (data : List Sample) (bandIds : Finset Nat) (bands : List Band)
    (g : Nat) : List GroupSeries :=
  if bandIds = ∅ then []
  else
    let groupBandRanges := bands.filter (fun b => decide (b.id ∈ bandIds))
    [{ name := "Group " ++ toString g,
       values := rollupMeanByYear
         (data.filter (fun d => groupBandRanges.any (fun b => inBand d.lat b))) }]

/-- `computeGroupAverages` of src/unnamed/part_002. -/
def computeGroupAverages (data : List Sample) (groups : Groups)
    (bands : List Band) : List GroupSeries :=
  seriesFor data groups.g1 bands 1 ++ seriesFor data groups.g2 bands 2 ++
    seriesFor data groups.g3 bands 3

end Part002

/-- C6: the loader handles exactly one failure mode — a failed fetch/parse is
caught and yields no data (`none`, no retry) — and on success returns one
numeric `{year, lat, tas}` record per CSV row. -/
theorem loadTASData_spec :
    (∀ e : String, loadTASData (Except.error e) = none) ∧
    (∀ rows : List RawRow,
      loadTASData (Except.ok rows) =
        some (rows.map (fun r => ⟨r.year, r.lat, r.tas⟩)) ∧
      (loadTASData (Except.ok rows)).map List.length = some rows.length) := by
  refine ⟨fun e => rfl, fun rows => ⟨rfl, ?_⟩⟩
  simp [loadTASData]

/-- C8: the clear-all reset leaves all three groups empty and the
restore-defaults reset leaves the grouping equal to the default preset
(group 1 = {0,5}, group 2 = {1,4}, group 3 = {2,3}), regardless of the
grouping state before the button press. -/
theorem reset_buttons_spec (s : Groups) :
    (clearAllAction s).g1 = ∅ ∧ (clearAllAction s).g2 = ∅ ∧
    (clearAllAction s).g3 = ∅ ∧
    restoreDefaultsAction s = ⟨{0, 5}, {1, 4}, {2, 3}⟩ :=
  ⟨rfl, rfl, rfl, rfl⟩

/-- C9: the click-cycle and averaging functions duplicated across the three
grouping variants are extensionally equal: on every state and band id the
three `handleBandClick` translations agree, and on every dataset, grouping
and band list the three `computeGroupAverages` translations agree. -/
theorem variants_extensionally_equal :
    (∀ (s : Groups) (b : Nat),
      Part001.handleBandClick s b = handleBandClick s b ∧
      Part002.handleBandClick s b = handleBandClick s b) ∧
    (∀ (data : List Sample) (groups : Groups) (bands : List Band),
      Part001.computeGroupAverages data groups bands =
        computeGroupAverages data groups bands ∧
      Part002.computeGroupAverages data groups bands =
        computeGroupAverages data groups bands) :=
  ⟨fun _ _ => ⟨rfl, rfl⟩, fun _ _ _ => ⟨rfl, rfl⟩⟩

/-- C7: clicking one band leaves every other band's assignment untouched —
for distinct band ids, membership of the other band in each of the three
groups is unchanged by `handleBandClick`. -/
theorem handleBandClick_frame (s : Groups) (b bp : Nat) (h : b ≠ bp) :
    (bp ∈ (handleBandClick s b).g1 ↔ bp ∈ s.g1) ∧
    (bp ∈ (handleBandClick s b).g2 ↔ bp ∈ s.g2) ∧
    (bp ∈ (handleBandClick s b).g3 ↔ bp ∈ s.g3) := by
  have h2 : bp ≠ b := Ne.symm h
  unfold handleBandClick
  split_ifs <;> simp [Finset.mem_erase, Finset.mem_insert, h2]

/-- Witness for C7 at a concrete state and a concrete pair of distinct bands. -/
theorem handleBandClick_frame_witness :
    (0 : Nat) ≠ 1 ∧
    ((1 ∈ (handleBandClick applyDefaultPreset 0).g1 ↔ 1 ∈ applyDefaultPreset.g1) ∧
     (1 ∈ (handleBandClick applyDefaultPreset 0).g2 ↔ 1 ∈ applyDefaultPreset.g2) ∧
     (1 ∈ (handleBandClick applyDefaultPreset 0).g3 ↔ 1 ∈ applyDefaultPreset.g3)) :=
  ⟨by decide, handleBandClick_frame applyDefaultPreset 0 1 (by decide)⟩

theorem mem_dedupKeepFirst {z : Int} {l : List Int} :
    z ∈ dedupKeepFirst l ↔ z ∈ l := by
  induction l with
  | nil => simp [dedupKeepFirst]
  | cons y ys ih =>
    by_cases hz : z = y <;> simp [dedupKeepFirst, List.mem_filter, hz, ih]

theorem nodup_dedupKeepFirst (l : List Int) : (dedupKeepFirst l).Nodup := by
  induction l with
  | nil => simp [dedupKeepFirst]
  | cons y ys ih =>
    simp only [dedupKeepFirst, List.nodup_cons]
    refine ⟨?_, List.Nodup.filter _ ih⟩
    intro hmem
    have h2 := List.of_mem_filter hmem
    simp at h2

theorem rollup_keys (l : List Sample) :
    (rollupMeanByYear l).map Prod.fst = dedupKeepFirst (l.map Sample.year) := by
  rw [rollupMeanByYear, List.map_map]
  exact List.map_id _

theorem rollup_mem (l : List Sample) (y : Int) :
    (∃ p ∈ rollupMeanByYear l, p.1 = y) ↔ ∃ d ∈ l, d.year = y := by
  simp [rollupMeanByYear, mem_dedupKeepFirst]

theorem rollup_value {l : List Sample} {p : Int × Option ℚ}
    (hp : p ∈ rollupMeanByYear l) :
    l.filter (fun d => decide (d.year = p.1)) ≠ [] ∧
    p.2 = some (arithMean
      ((l.filter (fun d => decide (d.year = p.1))).map Sample.tas)) := by
  obtain ⟨a, ha, hpa⟩ := List.mem_map.mp hp
  subst hpa
  have hy : a ∈ l.map Sample.year := mem_dedupKeepFirst.mp ha
  obtain ⟨d, hd, hdy⟩ := List.mem_map.mp hy
  have hdf : d ∈ l.filter (fun d => decide (d.year = a)) :=
    List.mem_filter.mpr ⟨hd, by simp [hdy]⟩
  have hne : l.filter (fun d => decide (d.year = a)) ≠ [] :=
    List.ne_nil_of_mem hdf
  have hne2 : (l.filter (fun d => decide (d.year = a))).map Sample.tas ≠ [] := by
    simpa using hne
  exact ⟨hne, by simp [d3mean, arithMean, hne2]⟩

theorem values_of_mem_groupEntry {data : List Sample} {bandIds : Finset Nat}
    {bands : List Band} {g : Nat} {se : GroupSeries}
    (h : se ∈ groupEntry data bandIds bands g) :
    se.values = rollupMeanByYear
      (data.filter (fun d => matchesGroup bandIds bands d)) := by
  by_cases hn : bandIds = ∅
  · simp [groupEntry, hn] at h
  · simp only [groupEntry, hn, if_false, List.mem_singleton] at h
    rw [h]
    simp [matchesGroup]

/-- C10: every per-year bucket the averager takes a mean over is non-empty, so
every tas value in the returned series is a defined mean (never `none`). -/
theorem computeGroupAverages_tas_defined (data : List Sample) (groups : Groups)
    (bands : List Band) :
    ∀ se ∈ computeGroupAverages data groups bands, ∀ p ∈ se.values,
      p.2 ≠ none := by
  intro se hse p hp
  have hv : ∃ ids : Finset Nat,
      se.values = rollupMeanByYear
        (data.filter (fun d => matchesGroup ids bands d)) := by
    simp only [computeGroupAverages, List.mem_append] at hse
    rcases hse with (h1 | h2) | h3
    · exact ⟨groups.g1, values_of_mem_groupEntry h1⟩
    · exact ⟨groups.g2, values_of_mem_groupEntry h2⟩
    · exact ⟨groups.g3, values_of_mem_groupEntry h3⟩
  obtain ⟨ids, hvals⟩ := hv
  rw [hvals] at hp
  obtain ⟨-, hval⟩ := rollup_value hp
  rw [hval]
  simp

/-- Witness for C10 on a one-row dataset and the default preset grouping. -/
theorem computeGroupAverages_tas_defined_witness :
    ((⟨"Group 3", [(2000, some 1)]⟩ : GroupSeries) ∈
        computeGroupAverages [⟨2000, 0, 1⟩] applyDefaultPreset latitudeBands) ∧
    (((2000 : Int), some (1 : ℚ)) ∈
        (⟨"Group 3", [(2000, some 1)]⟩ : GroupSeries).values) ∧
    ((2000 : Int), some (1 : ℚ)).2 ≠ none := by
  have hres : computeGroupAverages [⟨2000, 0, 1⟩] applyDefaultPreset latitudeBands
      = [⟨"Group 1", []⟩, ⟨"Group 2", []⟩, ⟨"Group 3", [(2000, some 1)]⟩] := by
    norm_num [computeGroupAverages, groupEntry, applyDefaultPreset, latitudeBands,
      rollupMeanByYear, dedupKeepFirst, d3mean, inBand]
    refine ⟨by decide, by decide, by decide⟩
  refine ⟨by rw [hres]; simp, by simp, ?_⟩
  exact computeGroupAverages_tas_defined [⟨2000, 0, 1⟩] applyDefaultPreset
    latitudeBands ⟨"Group 3", [(2000, some 1)]⟩ (by rw [hres]; simp)
    ((2000 : Int), some (1 : ℚ)) (by simp)

theorem handleBandClick_mem_of_mem {s : Groups} {b x : Nat}
    (h : x ∈ (handleBandClick s b).g1 ∨ x ∈ (handleBandClick s b).g2 ∨
      x ∈ (handleBandClick s b).g3) :
    x ∈ s.g1 ∨ x ∈ s.g2 ∨ x ∈ s.g3 ∨ x = b := by
  unfold handleBandClick at h
  split_ifs at h <;>
    simp only [Finset.mem_erase, Finset.mem_insert] at h <;> tauto

theorem handleBandClick_pairwise {s : Groups}
    (h : ∀ x : Nat, ¬(x ∈ s.g1 ∧ x ∈ s.g2) ∧ ¬(x ∈ s.g1 ∧ x ∈ s.g3) ∧
      ¬(x ∈ s.g2 ∧ x ∈ s.g3)) (b : Nat) :
    ∀ x : Nat, ¬(x ∈ (handleBandClick s b).g1 ∧ x ∈ (handleBandClick s b).g2) ∧
      ¬(x ∈ (handleBandClick s b).g1 ∧ x ∈ (handleBandClick s b).g3) ∧
      ¬(x ∈ (handleBandClick s b).g2 ∧ x ∈ (handleBandClick s b).g3) := by
  intro x
  unfold handleBandClick
  split_ifs with h1 h2 h3 <;>
    simp only [Finset.mem_erase, Finset.mem_insert]
  · refine ⟨?_, ?_, ?_⟩
    · rintro ⟨⟨hxb, hx1⟩, rfl | hx2⟩
      · exact hxb rfl
      · exact (h x).1 ⟨hx1, hx2⟩
    · rintro ⟨⟨hxb, hx1⟩, hx3⟩
      exact (h x).2.1 ⟨hx1, hx3⟩
    · rintro ⟨rfl | hx2, hx3⟩
      · exact (h x).2.1 ⟨h1, hx3⟩
      · exact (h x).2.2 ⟨hx2, hx3⟩
  · refine ⟨?_, ?_, ?_⟩
    · rintro ⟨hx1, hxb, hx2⟩
      exact (h x).1 ⟨hx1, hx2⟩
    · rintro ⟨hx1, rfl | hx3⟩
      · exact h1 hx1
      · exact (h x).2.1 ⟨hx1, hx3⟩
    · rintro ⟨⟨hxb, hx2⟩, rfl | hx3⟩
      · exact hxb rfl
      · exact (h x).2.2 ⟨hx2, hx3⟩
  · refine ⟨?_, ?_, ?_⟩
    · exact (h x).1
    · rintro ⟨hx1, hxb, hx3⟩
      exact (h x).2.1 ⟨hx1, hx3⟩
    · rintro ⟨hx2, hxb, hx3⟩
      exact (h x).2.2 ⟨hx2, hx3⟩
  · refine ⟨?_, ?_, ?_⟩
    · rintro ⟨rfl | hx1, hx2⟩
      · exact h2 hx2
      · exact (h x).1 ⟨hx1, hx2⟩
    · rintro ⟨rfl | hx1, hx3⟩
      · exact h3 hx3
      · exact (h x).2.1 ⟨hx1, hx3⟩
    · exact (h x).2.2

theorem reachable_inv {s : Groups} (hs : Reachable s) :
    (∀ b : Nat, ¬(b ∈ s.g1 ∧ b ∈ s.g2) ∧ ¬(b ∈ s.g1 ∧ b ∈ s.g3) ∧
      ¬(b ∈ s.g2 ∧ b ∈ s.g3)) ∧
    s.g1 ∪ s.g2 ∪ s.g3 ⊆ Finset.range 6 := by
  induction hs with
  | init => simp [initialGroups]
  | @click s b hs hb ih =>
    have hb6 : b < 6 := by
      simp [latitudeBands] at hb
      omega
    refine ⟨handleBandClick_pairwise ih.1 b, ?_⟩
    intro x hx
    simp only [Finset.mem_union] at hx
    rcases handleBandClick_mem_of_mem (by tauto) with h1 | h2 | h3 | rfl
    · exact ih.2 (by simp [Finset.mem_union, h1])
    · exact ih.2 (by simp [Finset.mem_union, h2])
    · exact ih.2 (by simp [Finset.mem_union, h3])
    · simpa [Finset.mem_range] using hb6
  | clearAll hs ih => simp [clearAllAction]
  | restore hs ih =>
    constructor
    · intro b
      simp only [restoreDefaultsAction, applyDefaultPreset, Finset.mem_insert,
        Finset.mem_singleton]
      omega
    · intro x hx
      simp only [restoreDefaultsAction, applyDefaultPreset, Finset.mem_union,
        Finset.mem_insert, Finset.mem_singleton] at hx
      simp only [Finset.mem_range]
      omega

/-- C3: after any sequence of clicks on the six bands, resets and preset
applications from the initial grouping, every band id lies in at most one of
the three groups, and the total number of band ids referenced across the
groups is at most 6. -/
theorem reachable_groups_invariant (s : Groups) (hs : Reachable s) :
    (∀ b : Nat, ¬(b ∈ s.g1 ∧ b ∈ s.g2) ∧ ¬(b ∈ s.g1 ∧ b ∈ s.g3) ∧
      ¬(b ∈ s.g2 ∧ b ∈ s.g3)) ∧
    (s.g1 ∪ s.g2 ∪ s.g3).card ≤ 6 := by
  obtain ⟨hpair, hsub⟩ := reachable_inv hs
  refine ⟨hpair, ?_⟩
  calc (s.g1 ∪ s.g2 ∪ s.g3).card ≤ (Finset.range 6).card :=
        Finset.card_le_card hsub
    _ = 6 := Finset.card_range 6

/-- Witness for C3 at the (reachable) default-preset grouping. -/
theorem reachable_groups_invariant_witness :
    (∀ b : Nat,
      ¬(b ∈ (restoreDefaultsAction initialGroups).g1 ∧
        b ∈ (restoreDefaultsAction initialGroups).g2) ∧
      ¬(b ∈ (restoreDefaultsAction initialGroups).g1 ∧
        b ∈ (restoreDefaultsAction initialGroups).g3) ∧
      ¬(b ∈ (restoreDefaultsAction initialGroups).g2 ∧
        b ∈ (restoreDefaultsAction initialGroups).g3)) ∧
    ((restoreDefaultsAction initialGroups).g1 ∪
      (restoreDefaultsAction initialGroups).g2 ∪
      (restoreDefaultsAction initialGroups).g3).card ≤ 6 :=
  reachable_groups_invariant _ (Reachable.restore Reachable.init)

/-- C2: from a reachable grouping, a click advances the clicked band one step
along the 4-state cycle unassigned(0) → 1 → 2 → 3 → 0, and four clicks on the
same band restore the whole grouping, in particular the band's assignment. -/
theorem handleBandClick_cycle (s : Groups) (b : Nat) (hs : Reachable s) :
    assignment (handleBandClick s b) b = (assignment s b + 1) % 4 ∧
    handleBandClick (handleBandClick (handleBandClick (handleBandClick s b) b) b) b
      = s ∧
    assignment
      (handleBandClick (handleBandClick (handleBandClick (handleBandClick s b) b) b) b)
      b = assignment s b := by
  have hpair := (reachable_inv hs).1 b
  obtain ⟨g1, g2, g3⟩ := s
  by_cases hb1 : b ∈ g1
  · have hb2 : b ∉ g2 := fun h => hpair.1 ⟨hb1, h⟩
    have hb3 : b ∉ g3 := fun h => hpair.2.1 ⟨hb1, h⟩
    simp [handleBandClick, assignment, hb1, hb2, hb3,
      Finset.erase_insert, Finset.insert_erase]
  · by_cases hb2 : b ∈ g2
    · have hb3 : b ∉ g3 := fun h => hpair.2.2 ⟨hb2, h⟩
      simp [handleBandClick, assignment, hb1, hb2, hb3,
        Finset.erase_insert, Finset.insert_erase]
    · by_cases hb3 : b ∈ g3
      · simp [handleBandClick, assignment, hb1, hb2, hb3,
          Finset.erase_insert, Finset.insert_erase]
      · simp [handleBandClick, assignment, hb1, hb2, hb3,
          Finset.erase_insert, Finset.insert_erase]

/-- Witness for C2: the cycle and the four-click return at the default preset
grouping and band 0 (assigned to group 1 there). -/
theorem handleBandClick_cycle_witness :
    assignment (handleBandClick applyDefaultPreset 0) 0 =
      (assignment applyDefaultPreset 0 + 1) % 4 ∧
    handleBandClick (handleBandClick (handleBandClick
      (handleBandClick applyDefaultPreset 0) 0) 0) 0 = applyDefaultPreset ∧
    assignment (handleBandClick (handleBandClick (handleBandClick
      (handleBandClick applyDefaultPreset 0) 0) 0) 0) 0 =
      assignment applyDefaultPreset 0 :=
  handleBandClick_cycle applyDefaultPreset 0 (Reachable.restore Reachable.init)

/-- C4 counterexample: latitude 90 lies in the stated span [-90, 90] but falls
in none of the six bands under the averager's membership test
`lat >= min && lat < max`, so the bands do not partition [-90, 90]. -/
theorem latitudeBands_no_band_at_90 :
    ((-90 : ℚ) ≤ 90 ∧ (90 : ℚ) ≤ 90) ∧
    (latitudeBands.filter (fun b => inBand 90 b)).length = 0 := by
  refine ⟨by norm_num, ?_⟩
  norm_num [latitudeBands, inBand, List.filter]

/-- C4 (amended): every latitude in the half-open span [-90, 90) falls in
exactly one of the six bands under the membership test
`lat >= min && lat < max`; latitude 90 itself falls in none. -/
theorem latitudeBands_partition (lat : ℚ) (h1 : -90 ≤ lat) (h2 : lat < 90) :
    (latitudeBands.filter (fun b => inBand lat b)).length = 1 := by
  have t : ∀ (i : Nat) (u v : ℚ), u ≤ lat → lat < v →
      inBand lat ⟨i, u, v⟩ = true := by
    intro i u v hu hv
    simp only [inBand, Bool.and_eq_true, decide_eq_true_eq]
    exact ⟨hu, hv⟩
  have f1 : ∀ (i : Nat) (u v : ℚ), lat < u → inBand lat ⟨i, u, v⟩ = false := by
    intro i u v hu
    simp [inBand, not_le.mpr hu]
  have f2 : ∀ (i : Nat) (u v : ℚ), v ≤ lat → inBand lat ⟨i, u, v⟩ = false := by
    intro i u v hv
    simp [inBand, not_lt.mpr hv]
  rcases lt_or_le lat (-60) with c1 | c1
  · simp [latitudeBands, List.filter_cons, List.filter_nil,
      t 0 (-90) (-60) h1 c1, f1 1 (-60) (-30) c1, f1 2 (-30) 0 (by linarith),
      f1 3 0 30 (by linarith), f1 4 30 60 (by linarith), f1 5 60 90 (by linarith)]
  · rcases lt_or_le lat (-30) with c2 | c2
    · simp [latitudeBands, List.filter_cons, List.filter_nil,
        f2 0 (-90) (-60) c1, t 1 (-60) (-30) c1 c2, f1 2 (-30) 0 c2,
        f1 3 0 30 (by linarith), f1 4 30 60 (by linarith),
        f1 5 60 90 (by linarith)]
    · rcases lt_or_le lat 0 with c3 | c3
      · simp [latitudeBands, List.filter_cons, List.filter_nil,
          f2 0 (-90) (-60) (by linarith), f2 1 (-60) (-30) c2,
          t 2 (-30) 0 c2 c3, f1 3 0 30 c3, f1 4 30 60 (by linarith),
          f1 5 60 90 (by linarith)]
      · rcases lt_or_le lat 30 with c4 | c4
        · simp [latitudeBands, List.filter_cons, List.filter_nil,
            f2 0 (-90) (-60) (by linarith), f2 1 (-60) (-30) (by linarith),
            f2 2 (-30) 0 c3, t 3 0 30 c3 c4, f1 4 30 60 c4,
            f1 5 60 90 (by linarith)]
        · rcases lt_or_le lat 60 with c5 | c5
          · simp [latitudeBands, List.filter_cons, List.filter_nil,
              f2 0 (-90) (-60) (by linarith), f2 1 (-60) (-30) (by linarith),
              f2 2 (-30) 0 (by linarith), f2 3 0 30 c4, t 4 30 60 c4 c5,
              f1 5 60 90 c5]
          · simp [latitudeBands, List.filter_cons, List.filter_nil,
              f2 0 (-90) (-60) (by linarith), f2 1 (-60) (-30) (by linarith),
              f2 2 (-30) 0 (by linarith), f2 3 0 30 (by linarith),
              f2 4 30 60 c5, t 5 60 90 c5 h2]

/-- Witness for the amended C4 at latitude 0. -/
theorem latitudeBands_partition_witness :
    (-90 : ℚ) ≤ 0 ∧ (0 : ℚ) < 90 ∧
    (latitudeBands.filter (fun b => inBand 0 b)).length = 1 :=
  ⟨by norm_num, by norm_num, latitudeBands_partition 0 (by norm_num) (by norm_num)⟩

/-- C5: the annotation guard of the annotated variant holds exactly when all
three groups have size 2 and the groups are the sets {0,5}, {1,4}, {2,3} in
some order of group numbers (the poles/mid-lats/tropics preset pattern). -/
theorem groupsMatchDefaultPattern_iff (groups : Groups) :
    groupsMatchDefaultPattern groups = true ↔
      (groups.g1.card = 2 ∧ groups.g2.card = 2 ∧ groups.g3.card = 2) ∧
      ((groups.g1 = {0, 5} ∧ groups.g2 = {1, 4} ∧ groups.g3 = {2, 3}) ∨
       (groups.g1 = {0, 5} ∧ groups.g2 = {2, 3} ∧ groups.g3 = {1, 4}) ∨
       (groups.g1 = {1, 4} ∧ groups.g2 = {0, 5} ∧ groups.g3 = {2, 3}) ∨
       (groups.g1 = {1, 4} ∧ groups.g2 = {2, 3} ∧ groups.g3 = {0, 5}) ∨
       (groups.g1 = {2, 3} ∧ groups.g2 = {0, 5} ∧ groups.g3 = {1, 4}) ∨
       (groups.g1 = {2, 3} ∧ groups.g2 = {1, 4} ∧ groups.g3 = {0, 5})) := by
  obtain ⟨g1, g2, g3⟩ := groups
  dsimp only
  have key : ∀ (s : Finset Nat) (a b : Nat), a ≠ b → s.card = 2 →
      a ∈ s → b ∈ s → s = {a, b} := by
    intro s a b hab hcard ha hb
    have hpc : ({a, b} : Finset Nat).card = 2 := by
      rw [Finset.card_insert_of_not_mem (by simp [hab]), Finset.card_singleton]
    refine (Finset.eq_of_subset_of_card_le ?_ (by rw [hcard, hpc])).symm
    intro x hx
    rcases Finset.mem_insert.mp hx with rfl | hx
    · exact ha
    · rw [Finset.mem_singleton.mp hx]
      exact hb
  constructor
  · intro h
    simp only [groupsMatchDefaultPattern] at h
    split_ifs at h with hcond
    have hfl : ([g1.card, g2.card, g3.card].filter (fun s => s == 2)).length = 3 := by
      by_contra hne
      exact hcond (by simp [hne])
    have e123 : g1.card = 2 ∧ g2.card = 2 ∧ g3.card = 2 := by
      by_cases e1 : g1.card = 2 <;> by_cases e2 : g2.card = 2 <;>
        by_cases e3 : g3.card = 2 <;>
          simp [List.filter_cons, List.filter_nil, e1, e2, e3] at hfl ⊢
    obtain ⟨e1, e2, e3⟩ := e123
    simp only [List.any_cons, List.any_nil, Bool.or_eq_true, Bool.and_eq_true,
      decide_eq_true_eq, Bool.false_eq_true, or_false] at h
    rcases h with ⟨⟨hp | hp | hp, hq | hq | hq⟩, hr | hr | hr⟩ <;>
      have hA := key _ 0 5 (by decide) (by assumption) hp.1 hp.2 <;>
      have hB := key _ 2 3 (by decide) (by assumption) hq.1 hq.2 <;>
      have hC := key _ 1 4 (by decide) (by assumption) hr.1 hr.2 <;>
      first
      | (rw [hA] at hB; exact absurd hB (by decide))
      | (rw [hA] at hC; exact absurd hC (by decide))
      | (rw [hB] at hC; exact absurd hC (by decide))
      | (refine ⟨⟨e1, e2, e3⟩, ?_⟩; rw [hA, hB, hC]; decide)
  · intro h
    obtain ⟨-, hd⟩ := h
    rcases hd with ⟨a, b, c⟩ | ⟨a, b, c⟩ | ⟨a, b, c⟩ | ⟨a, b, c⟩ |
      ⟨a, b, c⟩ | ⟨a, b, c⟩ <;> subst a <;> subst b <;> subst c <;> decide

theorem groupEntry_of_nonempty {data : List Sample} {bandIds : Finset Nat}
    {bands : List Band} {g : Nat} (h : bandIds ≠ ∅) :
    groupEntry data bandIds bands g =
      [⟨"Group " ++ toString g,
        rollupMeanByYear (data.filter (fun d => matchesGroup bandIds bands d))⟩] := by
  simp [groupEntry, h, matchesGroup]

theorem rollup_series_props (data : List Sample) (ids : Finset Nat)
    (bands : List Band) :
    ((rollupMeanByYear
      (data.filter (fun d => matchesGroup ids bands d))).map Prod.fst).Nodup ∧
    (∀ y : Int,
      (∃ p ∈ rollupMeanByYear (data.filter (fun d => matchesGroup ids bands d)),
        p.1 = y) ↔
      ∃ d ∈ data, d.year = y ∧ matchesGroup ids bands d = true) ∧
    (∀ p ∈ rollupMeanByYear (data.filter (fun d => matchesGroup ids bands d)),
      p.2 = some (arithMean
        (((data.filter (fun d => matchesGroup ids bands d)).filter
          (fun d => decide (d.year = p.1))).map Sample.tas))) := by
  refine ⟨?_, ?_, ?_⟩
  · rw [rollup_keys]
    exact nodup_dedupKeepFirst _
  · intro y
    rw [rollup_mem]
    simp only [List.mem_filter]
    constructor
    · rintro ⟨d, ⟨hd, hm⟩, hy⟩
      exact ⟨d, hd, hy, hm⟩
    · rintro ⟨d, hd, hy, hm⟩
      exact ⟨d, ⟨hd, hm⟩, hy⟩
  · intro p hp
    exact (rollup_value hp).2

/-- C1: on any dataset and grouping, the averager returns one series per
non-empty group in order 1, 2, 3 (skipping empty groups), and each such
series has exactly one entry per distinct year at which some sample's
latitude falls in a band owned by the group, with that entry's tas the
arithmetic mean of the tas values of the matching samples of that year. -/
theorem computeGroupAverages_spec (data : List Sample) (groups : Groups) :
    (computeGroupAverages data groups latitudeBands).map GroupSeries.name =
      ([1, 2, 3].filter (fun g => !decide (groupOf groups g = ∅))).map
        (fun g => "Group " ++ toString g) ∧
    ∀ g ∈ [1, 2, 3], groupOf groups g ≠ ∅ →
      ∃ se ∈ computeGroupAverages data groups latitudeBands,
        se.name = "Group " ++ toString g ∧
        (se.values.map Prod.fst).Nodup ∧
        (∀ y : Int, (∃ p ∈ se.values, p.1 = y) ↔
          ∃ d ∈ data, d.year = y ∧
            matchesGroup (groupOf groups g) latitudeBands d = true) ∧
        (∀ p ∈ se.values, p.2 = some (arithMean
          (((data.filter (fun d => matchesGroup (groupOf groups g) latitudeBands d)).filter
            (fun d => decide (d.year = p.1))).map Sample.tas))) := by
  constructor
  · by_cases h1 : groups.g1 = ∅ <;> by_cases h2 : groups.g2 = ∅ <;>
      by_cases h3 : groups.g3 = ∅ <;>
        simp [computeGroupAverages, groupEntry, groupOf, h1, h2, h3]
  · intro g hg hne
    have hg' : g = 1 ∨ g = 2 ∨ g = 3 := by simpa using hg
    rcases hg' with rfl | rfl | rfl
    · have hne1 : groups.g1 ≠ ∅ := hne
      refine ⟨⟨"Group " ++ toString 1,
        rollupMeanByYear (data.filter (fun d => matchesGroup groups.g1 latitudeBands d))⟩,
        ?_, rfl, ?_, ?_, ?_⟩
      · simp [computeGroupAverages, groupEntry_of_nonempty hne1]
      · exact (rollup_series_props data groups.g1 latitudeBands).1
      · exact (rollup_series_props data groups.g1 latitudeBands).2.1
      · exact (rollup_series_props data groups.g1 latitudeBands).2.2
    · have hne2 : groups.g2 ≠ ∅ := hne
      refine ⟨⟨"Group " ++ toString 2,
        rollupMeanByYear (data.filter (fun d => matchesGroup groups.g2 latitudeBands d))⟩,
        ?_, rfl, ?_, ?_, ?_⟩
      · simp [computeGroupAverages, groupEntry_of_nonempty hne2]
      · exact (rollup_series_props data groups.g2 latitudeBands).1
      · exact (rollup_series_props data groups.g2 latitudeBands).2.1
      · exact (rollup_series_props data groups.g2 latitudeBands).2.2
    · have hne3 : groups.g3 ≠ ∅ := hne
      refine ⟨⟨"Group " ++ toString 3,
        rollupMeanByYear (data.filter (fun d => matchesGroup groups.g3 latitudeBands d))⟩,
        ?_, rfl, ?_, ?_, ?_⟩
      · simp [computeGroupAverages, groupEntry_of_nonempty hne3]
      · exact (rollup_series_props data groups.g3 latitudeBands).1
      · exact (rollup_series_props data groups.g3 latitudeBands).2.1
      · exact (rollup_series_props data groups.g3 latitudeBands).2.2

/-- Witness for C1 on a one-row dataset, the default preset, and group 3. -/
theorem computeGroupAverages_spec_witness :
    (3 ∈ [1, 2, 3]) ∧ (groupOf applyDefaultPreset 3 ≠ ∅) ∧
    (∃ se ∈ computeGroupAverages [⟨2000, 0, 1⟩] applyDefaultPreset latitudeBands,
      se.name = "Group " ++ toString 3 ∧
      (se.values.map Prod.fst).Nodup ∧
      (∀ y : Int, (∃ p ∈ se.values, p.1 = y) ↔
        ∃ d ∈ [(⟨2000, 0, 1⟩ : Sample)], d.year = y ∧
          matchesGroup (groupOf applyDefaultPreset 3) latitudeBands d = true) ∧
      (∀ p ∈ se.values, p.2 = some (arithMean
        ((([(⟨2000, 0, 1⟩ : Sample)].filter
            (fun d => matchesGroup (groupOf applyDefaultPreset 3) latitudeBands d)).filter
          (fun d => decide (d.year = p.1))).map Sample.tas)))) :=
  ⟨by decide, by decide,
    (computeGroupAverages_spec [⟨2000, 0, 1⟩] applyDefaultPreset).2 3
      (by decide) (by decide)⟩
